import Mathlib

/-!
Verification development for the ENSPYR task-manager repository.

The definitions below are shallow embeddings of the TypeScript source:
  - the AI task-extraction validator of src/server/ai.ts and its
    Next.js-route variant src/api/ai/extract-tasks.ts,
  - the client reconciliation helpers of
    src/client/src/components/DashboardAIAssistant.tsx and
    src/client/src/hooks/useTaskManager.ts,
  - the task store of src/server/storage.ts (createTask, updateTask,
    deleteTask, getTasksDueToday),
  - the HTTP route handlers of src/server/routes.ts (POST /tasks,
    DELETE /tasks/:id, GET /task-stats),
  - the zod insert schema of src/shared/schema.ts.

Machine arithmetic: JavaScript numbers appearing here hold timestamp
millisecond values and small counts, far below 2^53, where double
arithmetic on integers is exact; Math.round of an exact quotient is
modelled as floor (x + 1/2) over the exact rationals, written with
integer floor division.
-/

namespace TaskManager

/-- Status string constants of shared/schema.ts (TaskStatus). -/
def statusTodo : String := "todo"

/-- Status string constant TaskStatus.IN_PROGRESS. -/
def statusInProgress : String := "in_progress"

/-- Status string constant TaskStatus.COMPLETED. -/
def statusCompleted : String := "completed"

/-- Priority values of shared/schema.ts (TaskPriority): the three
lowercase strings low / medium / high, here as an enumeration. -/
inductive Priority
  | low
  | medium
  | high
  deriving DecidableEq, Repr

/-- The string each Priority constructor denotes in the source. -/
def Priority.toStr : Priority → String
  | .low => "low"
  | .medium => "medium"
  | .high => "high"

/-- z.enum([TaskPriority.LOW, TaskPriority.MEDIUM, TaskPriority.HIGH]):
exact (case-sensitive) match against the three lowercase strings;
anything else fails. -/
def parsePriority (s : String) : Option Priority :=
  if s = "low" then some .low
  else if s = "medium" then some .medium
  else if s = "high" then some .high
  else none

/-- One element of the provider's `tasks` array, as the zod object
schema sees it: each field either absent or a string.  (A field bound
to a non-string JSON value also fails zod's z.string(); the claims
under study only involve absent-or-string fields, which this model
covers.) -/
structure RawTask where
  title : Option String
  description : Option String
  dueDate : Option String
  priority : Option String
  category : Option String
  deriving DecidableEq, Repr

/-- A validated candidate task (type ExtractedTask of src/server/ai.ts). -/
structure ExtractedTask where
  title : String
  description : Option String
  dueDate : Option String
  priority : Priority
  category : Option String
  deriving DecidableEq, Repr

/-- extractedTaskSchema.parse of src/server/ai.ts (lines 12-18):
title must be a string of length ≥ 1 (z.string().min(1)); priority is
required and must match the enum exactly — there is no default and no
case folding; description, dueDate, category pass through unchanged as
optional strings (dueDate is z.string().optional(): no date parsing). -/
def extractedTaskSchema (t : RawTask) : Option ExtractedTask :=
  match t.title with
  | none => none
  | some ti =>
    if 1 ≤ ti.length then
      match t.priority with
      | none => none
      | some p =>
        match parsePriority p with
        | none => none
        | some pr =>
          some { title := ti, description := t.description,
                 dueDate := t.dueDate, priority := pr,
                 category := t.category }
    else none

/-- extractedTaskSchema of src/api/ai/extract-tasks.ts (lines 14-24):
title is z.string() with no minimum length; priority carries
.default(TaskPriority.MEDIUM), so an absent priority becomes medium,
while a present but unrecognized string still fails; dueDate is again
an arbitrary optional string. -/
def extractedTaskSchemaApi (t : RawTask) : Option ExtractedTask :=
  match t.title with
  | none => none
  | some ti =>
    match t.priority with
    | none =>
      some { title := ti, description := t.description,
             dueDate := t.dueDate, priority := .medium,
             category := t.category }
    | some p =>
      match parsePriority p with
      | none => none
      | some pr =>
        some { title := ti, description := t.description,
               dueDate := t.dueDate, priority := pr,
               category := t.category }

/-- The per-task validation loop of extractTasksFromText
(src/server/ai.ts lines 89-101): try extractedTaskSchema.parse on each
element in order, keep the successes, skip the failures. -/
def validateExtractedTasks (l : List RawTask) : List ExtractedTask :=
  l.filterMap extractedTaskSchema

/-- A raw element whose extractedTaskSchema parse succeeds has a
nonempty title. -/
theorem title_nonempty_of_parse {t : RawTask} {e : ExtractedTask}
    (h : extractedTaskSchema t = some e) : t.title = some e.title ∧ 1 ≤ e.title.length := by
  unfold extractedTaskSchema at h
  split at h
  · simp at h
  next ti hti =>
    split at h
    next hlen =>
      split at h
      · simp at h
      next p hp =>
        split at h
        · simp at h
        next pr hpr =>
          cases h
          exact ⟨hti, hlen⟩
    · simp at h

/-- An element with an empty-string title always fails validation. -/
theorem parse_empty_title {t : RawTask} (h : t.title = some "") :
    extractedTaskSchema t = none := by
  unfold extractedTaskSchema
  rw [h]
  rfl

/-- filterMap pairs each element whose image is `some` with its image,
in order. -/
theorem forall₂_filterMap_of_isSome {α β : Type} (f : α → Option β) :
    ∀ l : List α, (∀ t ∈ l, (f t).isSome = true) →
      List.Forall₂ (fun t e => f t = some e) l (l.filterMap f)
  | [], _ => by simp [List.filterMap]
  | a :: l, h => by
    have ha : (f a).isSome = true := h a (List.mem_cons_self a l)
    obtain ⟨b, hb⟩ := Option.isSome_iff_exists.mp ha
    rw [List.filterMap_cons_some hb]
    exact List.Forall₂.cons hb
      (forall₂_filterMap_of_isSome f l (fun t ht => h t (List.mem_cons_of_mem a ht)))

/-! ### Sample provider elements used as concrete inputs -/

/-- An element with a nonempty title and no priority field. -/
def rawNoPriority : RawTask :=
  { title := some "Call the plumber", description := none, dueDate := none,
    priority := none, category := none }

/-- An element whose priority is the uppercase string HIGH (a case
variant of a legal value). -/
def rawUpperPriority : RawTask :=
  { title := some "Call the plumber back", description := none, dueDate := none,
    priority := some "HIGH", category := none }

/-- A well-formed element. -/
def rawGoodA : RawTask :=
  { title := some "Buy milk", description := none, dueDate := none,
    priority := some "low", category := none }

/-- Another well-formed element. -/
def rawGoodB : RawTask :=
  { title := some "Send report", description := some "quarterly numbers",
    dueDate := some "2024-06-02", priority := some "high", category := some "Work" }

/-- A malformed element: empty title. -/
def rawEmptyTitle : RawTask :=
  { title := some "", description := none, dueDate := none,
    priority := some "medium", category := none }

/-- An element whose dueDate string is not a parsable calendar date. -/
def rawBadDueDate : RawTask :=
  { title := some "Pay rent", description := none, dueDate := some "not-a-date",
    priority := some "medium", category := none }

/-! ### C1 -/

/-- C1 counterexample: an element with the priority field absent, and
one with the unrecognized case variant HIGH, are both dropped entirely
by the validation loop of src/server/ai.ts — the output is empty, so
no candidate with a defaulted MEDIUM priority is produced, refuting
the claim that such elements are kept. -/
theorem c1_counterexample :
    validateExtractedTasks [rawNoPriority] = [] ∧
    validateExtractedTasks [rawUpperPriority] = [] := by
  decide

/-- C1 amended: in the server validator (src/server/ai.ts) the
priority field is required and matched case-sensitively against
low/medium/high, so an element whose priority is absent, or present
but unrecognized (including case variants), is dropped entirely; the
Next.js route variant (src/api/ai/extract-tasks.ts) defaults an absent
priority to MEDIUM and keeps the element, but still drops an element
with an unrecognized priority string. -/
theorem c1_priority_validation (t : RawTask) :
    (t.priority = none → extractedTaskSchema t = none) ∧
    (∀ p, t.priority = some p → parsePriority p = none →
      extractedTaskSchema t = none ∧ extractedTaskSchemaApi t = none) ∧
    (∀ ti, t.title = some ti → t.priority = none →
      extractedTaskSchemaApi t
        = some { title := ti, description := t.description, dueDate := t.dueDate,
                 priority := .medium, category := t.category }) := by
  refine ⟨?_, ?_, ?_⟩
  · intro hp
    unfold extractedTaskSchema
    cases hti : t.title with
    | none => rfl
    | some ti => simp [hp]
  · intro p hp hpp
    constructor
    · unfold extractedTaskSchema
      cases hti : t.title with
      | none => rfl
      | some ti => simp [hp, hpp]
    · unfold extractedTaskSchemaApi
      cases hti : t.title with
      | none => rfl
      | some ti => simp [hp, hpp]
  · intro ti hti hp
    unfold extractedTaskSchemaApi
    rw [hti, hp]

/-- C1 witness: the amended behavior at concrete inputs — the element
with no priority is dropped by the server validator, dropped-by-case
HIGH is dropped by both validators, and the route validator keeps the
no-priority element with MEDIUM filled in. -/
theorem c1_priority_validation_witness :
    extractedTaskSchema rawNoPriority = none ∧
    extractedTaskSchema rawUpperPriority = none ∧
    extractedTaskSchemaApi rawUpperPriority = none ∧
    extractedTaskSchemaApi rawNoPriority
      = some { title := "Call the plumber", description := none, dueDate := none,
               priority := .medium, category := none } :=
  ⟨(c1_priority_validation rawNoPriority).1 rfl,
   ((c1_priority_validation rawUpperPriority).2.1 "HIGH" rfl (by decide)).1,
   ((c1_priority_validation rawUpperPriority).2.1 "HIGH" rfl (by decide)).2,
   (c1_priority_validation rawNoPriority).2.2 "Call the plumber" rfl rfl⟩

/-! ### C2 -/

/-- C2 counterexample: on an element whose dueDate string is
unparsable, the validator does not yield a candidate with the dueDate
field absent (first conjunct negates the claimed output); it yields
the candidate with the unparsable string passed through untouched
(second conjunct) — the validator performs no date parsing at all. -/
theorem c2_counterexample :
    ¬ (validateExtractedTasks [rawBadDueDate]
        = [{ title := "Pay rent", description := none, dueDate := none,
             priority := .medium, category := none }]) ∧
    validateExtractedTasks [rawBadDueDate]
      = [{ title := "Pay rent", description := none, dueDate := some "not-a-date",
           priority := .medium, category := none }] := by
  decide

/-- C2 amended: the validator accepts any string as dueDate
(z.string().optional()) and passes it through unchanged; an element
with an unparsable dueDate is kept as a candidate, but with the
dueDate field still present, holding the original string — the field
is never dropped or normalized. -/
theorem c2_duedate_passthrough (t : RawTask) (ti p : String) (pr : Priority)
    (hti : t.title = some ti) (hlen : 1 ≤ ti.length)
    (hp : t.priority = some p) (hpr : parsePriority p = some pr) :
    extractedTaskSchema t
      = some { title := ti, description := t.description, dueDate := t.dueDate,
               priority := pr, category := t.category } := by
  unfold extractedTaskSchema
  simp [hti, hp, hpr, hlen]

/-- C2 witness: the amended behavior at the concrete unparsable-date
element. -/
theorem c2_duedate_passthrough_witness :
    extractedTaskSchema rawBadDueDate
      = some { title := "Pay rent", description := none, dueDate := some "not-a-date",
               priority := .medium, category := none } :=
  c2_duedate_passthrough rawBadDueDate "Pay rent" "medium" .medium rfl (by decide) rfl rfl

/-! ### C3 -/

/-- C3: if among the elements of a provider batch exactly one is
malformed (empty title) and every other element validates, the
validation loop yields the validated images of the other elements,
paired one-to-one and in order (Forall₂), hence N − 1 candidates; the
malformed element is skipped without aborting the batch. -/
theorem c3_single_malformed_skipped (pre post : List RawTask) (bad : RawTask)
    (hbad : bad.title = some "")
    (hgood : ∀ t ∈ pre ++ post, (extractedTaskSchema t).isSome = true) :
    List.Forall₂ (fun t e => extractedTaskSchema t = some e) (pre ++ post)
      (validateExtractedTasks (pre ++ bad :: post)) ∧
    (validateExtractedTasks (pre ++ bad :: post)).length
      = (pre ++ bad :: post).length - 1 := by
  have hdrop : validateExtractedTasks (pre ++ bad :: post)
      = validateExtractedTasks (pre ++ post) := by
    unfold validateExtractedTasks
    rw [List.filterMap_append, List.filterMap_append,
        List.filterMap_cons_none (parse_empty_title hbad)]
  have hf := forall₂_filterMap_of_isSome extractedTaskSchema (pre ++ post) hgood
  rw [hdrop]
  refine ⟨hf, ?_⟩
  have hlen : (validateExtractedTasks (pre ++ post)).length = (pre ++ post).length :=
    hf.length_eq.symm
  rw [hlen]
  simp only [List.length_append, List.length_cons]
  omega

/-- C3 witness: a concrete batch of three elements with the middle one
malformed yields two candidates. -/
theorem c3_single_malformed_skipped_witness :
    (validateExtractedTasks ([rawGoodA] ++ rawEmptyTitle :: [rawGoodB])).length
      = ([rawGoodA] ++ rawEmptyTitle :: [rawGoodB]).length - 1 :=
  (c3_single_malformed_skipped [rawGoodA] [rawGoodB] rawEmptyTitle rfl (by decide)).2

/-! ### Dates and JavaScript value model for the task store -/

/-- A JavaScript Date value: its internal time value, some
milliseconds-since-epoch integer, or none for an Invalid Date (NaN
time value). -/
abbrev JsDate := Option Int

/-- Model of the host JavaScript Date constructor applied to a string
(not repository code): it parses the strict ISO calendar form
YYYY-MM-DD into a timestamp and yields an Invalid Date (none) on
other strings. The claims below use only the parses/fails-to-parse
distinction; the numeric date encoding is treated as opaque. -/
def jsNewDate (s : String) : JsDate :=
  match s.toList with
  | [y1, y2, y3, y4, h1, m1, m2, h2, d1, d2] =>
    if (y1.isDigit && y2.isDigit && y3.isDigit && y4.isDigit &&
        (h1 == Char.ofNat 45) && (h2 == Char.ofNat 45) &&
        m1.isDigit && m2.isDigit && d1.isDigit && d2.isDigit) then
      let y := ((y1.toNat - 48) * 10 + (y2.toNat - 48)) * 100
                 + (y3.toNat - 48) * 10 + (y4.toNat - 48)
      let m := (m1.toNat - 48) * 10 + (m2.toNat - 48)
      let d := (d1.toNat - 48) * 10 + (d2.toNat - 48)
      if 1 ≤ m && m ≤ 12 && 1 ≤ d && d ≤ 31 then
        some (((y * 10000 + m * 100 + d : Nat) : Int) * 86400000)
      else none
    else none
  | _ => none

/-- A date-bearing input field of the task store, as the union the
code handles: absent (undefined), null, a string, or a native Date
value. -/
inductive DateField
  | undef
  | jsNull
  | str (s : String)
  | date (d : JsDate)
  deriving DecidableEq, Repr

/-- JavaScript truthiness of such a field value: undefined and null
are falsy, a string is truthy exactly when nonempty, and a Date object
is always truthy (even an Invalid Date). -/
def DateField.truthy : DateField → Bool
  | .undef => false
  | .jsNull => false
  | .str s => !(s == "")
  | .date _ => true

/-- The conversion step repeated for each date field in
storage.createTask / storage.updateTask:
if (field && typeof field === 'string') field = new Date(field). -/
def convertDateField : DateField → DateField
  | .str s => if s == "" then .str s else .date (jsNewDate s)
  | f => f

/-- getTime() of a field holding a Date: the ms value, or none for
the NaN of an Invalid Date.  (After conversion, every truthy date
field the code reads with getTime holds a Date.) -/
def DateField.getTime : DateField → Option Int
  | .date (some t) => some t
  | _ => none

/-- Math.round(diffMs / 60000) over the exact rationals:
floor(diffMs / 60000 + 1/2), written with integer floor division. -/
def roundMinutes (diffMs : Int) : Int :=
  Int.fdiv (2 * diffMs + 60000) 120000

/-- endTime.getTime() - startTime.getTime() followed by
Math.round(... / 60000), with NaN (none) propagation. -/
def diffRoundMinutes (endT startT : Option Int) : Option Int :=
  match endT, startT with
  | some e, some s => some (roundMinutes (e - s))
  | _, _ => none

/-! ### Insert schema and task store (src/shared/schema.ts,
src/server/storage.ts) -/

/-- A POST /tasks request body, holding the fields of the tasks table
minus id and createdAt (the shape insertTaskSchema validates); each
field may be absent.  Non-string/number junk in a typed field fails
zod and is outside this model; the claims under study involve only
well-typed-or-absent fields. -/
structure TaskBody where
  title : Option String
  description : Option String
  status : Option String
  priority : Option String
  dueDate : DateField
  category : Option String
  isAiGenerated : Option Int
  source : Option String
  userId : Option Int
  locationId : Option Int
  timeSpent : Option Int
  timeStarted : DateField
  timeCompleted : DateField
  photoUrl : Option String
  deriving DecidableEq, Repr

/-- A validated task insert (type InsertTask): title is now known to
be present. -/
structure InsertTask where
  title : String
  description : Option String
  status : Option String
  priority : Option String
  dueDate : DateField
  category : Option String
  isAiGenerated : Option Int
  source : Option String
  userId : Option Int
  locationId : Option Int
  timeSpent : Option Int
  timeStarted : DateField
  timeCompleted : DateField
  photoUrl : Option String
  deriving DecidableEq, Repr

/-- insertTaskSchema.parse (src/shared/schema.ts lines 47-55):
createInsertSchema(tasks).omit(id, createdAt) with dueDate widened to
z.union([z.string(), z.date(), z.null()]).optional().  The only
required field is title, taken as z.string() from the notNull text
column — with no minimum-length refinement, so any string (the empty
string included) passes; every other field is optional and passes
through unvalidated beyond its type. -/
def insertTaskSchema (b : TaskBody) : Option InsertTask :=
  match b.title with
  | none => none
  | some ti =>
    some { title := ti, description := b.description, status := b.status,
           priority := b.priority, dueDate := b.dueDate, category := b.category,
           isAiGenerated := b.isAiGenerated, source := b.source,
           userId := b.userId, locationId := b.locationId,
           timeSpent := b.timeSpent, timeStarted := b.timeStarted,
           timeCompleted := b.timeCompleted, photoUrl := b.photoUrl }

/-- The row payload DatabaseStorage.createTask hands to
db.insert(tasks).values(...): the processed copy of the input.
timeSpent may now hold a computed JS number, which is NaN (inner none)
when a date involved was invalid. -/
structure ProcessedInsert where
  title : String
  description : Option String
  status : Option String
  priority : Option String
  dueDate : DateField
  category : Option String
  isAiGenerated : Option Int
  source : Option String
  userId : Option Int
  locationId : Option Int
  timeSpent : Option (Option Int)
  timeStarted : DateField
  timeCompleted : DateField
  photoUrl : Option String
  deriving DecidableEq, Repr

/-- processedData.timeStarted after the in-progress branch of
DatabaseStorage.createTask (storage.ts lines 119-122): set to now when
status is in_progress and the converted field is falsy. -/
def createTaskTimeStarted (now : Int) (d : InsertTask) : DateField :=
  if d.status = some statusInProgress
      ∧ (convertDateField d.timeStarted).truthy = false then
    .date (some now)
  else convertDateField d.timeStarted

/-- processedData.timeCompleted after the completed branch of
DatabaseStorage.createTask (storage.ts lines 124-127): set to now when
status is completed and the converted field is falsy. -/
def createTaskTimeCompleted (now : Int) (d : InsertTask) : DateField :=
  if d.status = some statusCompleted
      ∧ (convertDateField d.timeCompleted).truthy = false then
    .date (some now)
  else convertDateField d.timeCompleted

/-- processedData.timeSpent after DatabaseStorage.createTask
(storage.ts lines 128-135): inside the completed-and-no-timeCompleted
branch, when timeStarted is truthy, the rounded minute difference
overwrites whatever timeSpent the caller sent; otherwise the caller's
value (if any) is left as is. -/
def createTaskTimeSpent (now : Int) (d : InsertTask) : Option (Option Int) :=
  if (d.status = some statusCompleted
        ∧ (convertDateField d.timeCompleted).truthy = false)
      ∧ (createTaskTimeStarted now d).truthy = true then
    some (diffRoundMinutes (createTaskTimeCompleted now d).getTime
      (createTaskTimeStarted now d).getTime)
  else d.timeSpent.map some

/-- DatabaseStorage.createTask (storage.ts lines 100-140), up to the
database insert: string dates converted with the Date constructor,
auto timestamps and timeSpent derived, everything else passed
through. -/
def createTask (now : Int) (d : InsertTask) : ProcessedInsert :=
  { title := d.title, description := d.description, status := d.status,
    priority := d.priority, dueDate := convertDateField d.dueDate,
    category := d.category, isAiGenerated := d.isAiGenerated,
    source := d.source, userId := d.userId, locationId := d.locationId,
    timeSpent := createTaskTimeSpent now d,
    timeStarted := createTaskTimeStarted now d,
    timeCompleted := createTaskTimeCompleted now d,
    photoUrl := d.photoUrl }

/-- The set-payload DatabaseStorage.updateTask hands to
db.update(tasks).set(...): same shape as the patch, with timeSpent
possibly a computed JS number. -/
structure UpdatePayload where
  title : Option String
  description : Option String
  status : Option String
  priority : Option String
  dueDate : DateField
  category : Option String
  isAiGenerated : Option Int
  source : Option String
  userId : Option Int
  locationId : Option Int
  timeSpent : Option (Option Int)
  timeStarted : DateField
  timeCompleted : DateField
  photoUrl : Option String
  deriving DecidableEq, Repr

/-- processedData.timeStarted in DatabaseStorage.updateTask
(storage.ts lines 161-164); the code checks both the converted copy
and the original patch field for falsiness. -/
def updateTaskTimeStarted (now : Int) (p : TaskBody) : DateField :=
  if p.status = some statusInProgress
      ∧ (convertDateField p.timeStarted).truthy = false
      ∧ p.timeStarted.truthy = false then
    .date (some now)
  else convertDateField p.timeStarted

/-- processedData.timeCompleted in DatabaseStorage.updateTask
(storage.ts lines 166-168). -/
def updateTaskTimeCompleted (now : Int) (p : TaskBody) : DateField :=
  if p.status = some statusCompleted
      ∧ (convertDateField p.timeCompleted).truthy = false
      ∧ p.timeCompleted.truthy = false then
    .date (some now)
  else convertDateField p.timeCompleted

/-- startTime = processedData.timeStarted || taskData.timeStarted
(storage.ts line 172): JavaScript or returns the first truthy
operand. -/
def updateTaskStartTime (now : Int) (p : TaskBody) : DateField :=
  if (updateTaskTimeStarted now p).truthy = true then updateTaskTimeStarted now p
  else p.timeStarted

/-- processedData.timeSpent in DatabaseStorage.updateTask (storage.ts
lines 170-177): derived, overwriting the patch value, whenever the
patch moves into completed without a truthy timeCompleted and either
copy of timeStarted is truthy. -/
def updateTaskTimeSpent (now : Int) (p : TaskBody) : Option (Option Int) :=
  if (p.status = some statusCompleted
        ∧ (convertDateField p.timeCompleted).truthy = false
        ∧ p.timeCompleted.truthy = false)
      ∧ ((updateTaskTimeStarted now p).truthy = true
         ∨ p.timeStarted.truthy = true) then
    some (diffRoundMinutes (updateTaskTimeCompleted now p).getTime
      (updateTaskStartTime now p).getTime)
  else p.timeSpent.map some

/-- DatabaseStorage.updateTask (storage.ts lines 142-187), up to the
database update: the processed set-payload built from the patch alone
(the previously stored row is not consulted). -/
def updateTask (now : Int) (p : TaskBody) : UpdatePayload :=
  { title := p.title, description := p.description, status := p.status,
    priority := p.priority, dueDate := convertDateField p.dueDate,
    category := p.category, isAiGenerated := p.isAiGenerated,
    source := p.source, userId := p.userId, locationId := p.locationId,
    timeSpent := updateTaskTimeSpent now p,
    timeStarted := updateTaskTimeStarted now p,
    timeCompleted := updateTaskTimeCompleted now p,
    photoUrl := p.photoUrl }

/-- POST /tasks handler (src/server/routes.ts lines 76-97): validate
the body with insertTaskSchema — a ZodError yields 400 — then create
the task and reply 201 with it. -/
def postTasks (now : Int) (b : TaskBody) : Nat × Option ProcessedInsert :=
  match insertTaskSchema b with
  | none => (400, none)
  | some d => (201, some (createTask now d))

/-! ### Persisted rows, delete, stats, due-today
(src/server/storage.ts, src/server/routes.ts) -/

/-- A persisted tasks row (type Task of shared/schema.ts): id
assigned, status and priority non-null text, dueDate a nullable
timestamp, isAiGenerated an integer flag (0/1 encodes the boolean). -/
structure Task where
  id : Nat
  title : String
  description : Option String
  status : String
  priority : String
  dueDate : Option JsDate
  category : Option String
  isAiGenerated : Int
  source : Option String
  userId : Option Int
  locationId : Option Int
  timeSpent : Option Int
  timeStarted : Option JsDate
  timeCompleted : Option JsDate
  deriving DecidableEq, Repr

/-- The node-postgres query result object that
db.delete(tasks).where(...) resolves to when no .returning() is
chained: an object carrying the affected-row count. -/
structure QueryResult where
  rowCount : Nat
  deriving DecidableEq, Repr

/-- JavaScript truthiness of the query result: it is an object, and
every object is truthy — regardless of rowCount. -/
def jsObjectTruthy (_r : QueryResult) : Bool := true

/-- The delete statement itself: removes the rows matching the id and
reports how many were removed. -/
def dbDeleteTasks (store : List Task) (id : Nat) : List Task × QueryResult :=
  (store.filter (fun t => t.id != id),
   { rowCount := (store.filter (fun t => t.id == id)).length })

/-- DatabaseStorage.deleteTask (storage.ts lines 189-192): runs the
delete and returns !!result, the double negation of the query result
object. -/
def deleteTask (store : List Task) (id : Nat) : List Task × Bool :=
  ((dbDeleteTasks store id).1, jsObjectTruthy (dbDeleteTasks store id).2)

/-- DELETE /tasks/:id handler (routes.ts lines 127-143): 404 when
deleteTask reports false, 204 otherwise; second component is the HTTP
status. -/
def deleteTaskRoute (store : List Task) (id : Nat) : List Task × Nat :=
  ((deleteTask store id).1, if (deleteTask store id).2 then 204 else 404)

/-- The status-count filters of the GET /task-stats handler. -/
def countStatus (l : List Task) (s : String) : Nat :=
  (l.filter (fun t => t.status == s)).length

/-- The response shape of GET /task-stats. -/
structure TaskStats where
  total : Nat
  todo : Nat
  inProgress : Nat
  completed : Nat
  completionRate : Nat
  deriving DecidableEq, Repr

/-- GET /task-stats handler (routes.ts lines 146-167): counts per
status and Math.round((completed / total) * 100), guarded to 0 when
there are no tasks.  The rounding of the exact ratio is
floor(200·completed + total over 2·total) in natural floor
division. -/
def taskStats (l : List Task) : TaskStats :=
  { total := l.length,
    todo := countStatus l statusTodo,
    inProgress := countStatus l statusInProgress,
    completed := countStatus l statusCompleted,
    completionRate :=
      if 0 < l.length then
        (200 * countStatus l statusCompleted + l.length) / (2 * l.length)
      else 0 }

/-- DatabaseStorage.getTasksDueToday (storage.ts lines 85-98),
parametrized by the two timestamps the function takes from the clock:
today at local midnight and the following local midnight.  The query
is gte(dueDate, today) AND lte(dueDate, tomorrow) — both bounds
inclusive — and a NULL or invalid dueDate matches neither bound. -/
def getTasksDueToday (today tomorrow : Int) (l : List Task) : List Task :=
  l.filter fun t =>
    match t.dueDate with
    | some (some d) => decide (today ≤ d) && decide (d ≤ tomorrow)
    | _ => false

/-! ### Client reconciliation
(src/client/src/components/DashboardAIAssistant.tsx,
src/client/src/hooks/useTaskManager.ts) -/

/-- The client TaskInput the reconciliation helpers construct and POST
to /api/tasks. -/
structure TaskInput where
  title : String
  description : Option String
  dueDate : Option String
  priority : Priority
  category : Option String
  status : String
  isAiGenerated : Int
  source : Option String
  deriving DecidableEq, Repr

/-- handleAddTask (DashboardAIAssistant.tsx lines 187-201): spread the
accepted candidate, then force status TODO, isAiGenerated = 1 (the
integer encoding of true) and the fixed provenance label.  The forced
fields come after the spread, so they win whatever the candidate
holds. -/
def handleAddTask (c : ExtractedTask) : TaskInput :=
  { title := c.title, description := c.description, dueDate := c.dueDate,
    priority := c.priority, category := c.category,
    status := statusTodo, isAiGenerated := 1, source := some "AI Assistant" }

/-- saveExtractedTasks (useTaskManager.ts lines 130-142): the batch
variant, one create per candidate with the same forced fields. -/
def saveExtractedTasks (l : List ExtractedTask) : List TaskInput :=
  l.map fun task =>
    { title := task.title, description := task.description, dueDate := task.dueDate,
      priority := task.priority, category := task.category,
      status := statusTodo, isAiGenerated := 1, source := some "AI Assistant" }

/-! ### C4 -/

/-- A concrete accepted candidate. -/
def sampleCandidate : ExtractedTask :=
  { title := "Call the plumber", description := none,
    dueDate := some "2024-06-02", priority := .high, category := none }

/-- C4: every task creation input produced by reconciliation — the
single-add path and every element of the batch path — carries status
TODO, isAiGenerated = 1 (true) and source "AI Assistant", whatever the
candidate contained. -/
theorem c4_reconciliation_provenance (c : ExtractedTask) (l : List ExtractedTask) :
    ((handleAddTask c).status = statusTodo ∧ (handleAddTask c).isAiGenerated = 1 ∧
      (handleAddTask c).source = some "AI Assistant") ∧
    ∀ i ∈ saveExtractedTasks l,
      i.status = statusTodo ∧ i.isAiGenerated = 1 ∧ i.source = some "AI Assistant" := by
  refine ⟨⟨rfl, rfl, rfl⟩, ?_⟩
  intro i hi
  unfold saveExtractedTasks at hi
  obtain ⟨c2, -, rfl⟩ := List.mem_map.mp hi
  exact ⟨rfl, rfl, rfl⟩

/-- C4 witness: the provenance fields on a concrete candidate, taken
through the batch path. -/
theorem c4_reconciliation_provenance_witness :
    (handleAddTask sampleCandidate).status = statusTodo ∧
    (handleAddTask sampleCandidate).isAiGenerated = 1 ∧
    (handleAddTask sampleCandidate).source = some "AI Assistant" :=
  (c4_reconciliation_provenance sampleCandidate [sampleCandidate]).2
    (handleAddTask sampleCandidate) (by decide)

/-! ### C6 -/

/-- A stored row with id 2, used to show the store is untouched. -/
def sampleStoredTask : Task :=
  { id := 2, title := "Water the plants", description := none,
    status := statusTodo, priority := "medium", dueDate := none,
    category := none, isAiGenerated := 0, source := none, userId := none,
    locationId := none, timeSpent := none, timeStarted := none,
    timeCompleted := none }

/-- C6: deleteTask returns !!result where result is the drizzle query
result object, which is truthy whether or not a row matched; so on a
store without the requested id it still returns true, the DELETE route
takes the success branch and answers 204 — never the 404 the claim
and the route's own dead not-found branch call for.  The store is
left unchanged. -/
theorem c6_delete_missing_id :
    deleteTask [sampleStoredTask] 1 = ([sampleStoredTask], true) ∧
    deleteTaskRoute [sampleStoredTask] 1 = ([sampleStoredTask], 204) ∧
    (deleteTaskRoute [sampleStoredTask] 1).2 ≠ 404 ∧
    (dbDeleteTasks [sampleStoredTask] 1).2.rowCount = 0 := by
  decide

/-! ### C5 -/

/-- A create input: status completed, timeStarted at epoch 0, no
timeCompleted, and an explicit caller-supplied timeSpent of 999. -/
def completedWithTimeSpent : InsertTask :=
  { title := "Finish deck", description := none, status := some statusCompleted,
    priority := none, dueDate := .undef, category := none, isAiGenerated := none,
    source := none, userId := none, locationId := none, timeSpent := some 999,
    timeStarted := .date (some 0), timeCompleted := .undef, photoUrl := none }

/-- The analogous update patch. -/
def completedPatch : TaskBody :=
  { title := none, description := none, status := some statusCompleted,
    priority := none, dueDate := .undef, category := none, isAiGenerated := none,
    source := none, userId := none, locationId := none, timeSpent := some 999,
    timeStarted := .date (some 0), timeCompleted := .undef, photoUrl := none }

/-- C5 counterexample: a caller completing a task at now = 120000 ms
with timeStarted 0 and an explicit timeSpent of 999 gets timeSpent
overwritten with the computed 2 minutes, in createTask and updateTask
alike — the caller's explicit value is not kept. -/
theorem c5_counterexample :
    (createTask 120000 completedWithTimeSpent).timeSpent = some (some 2) ∧
    (createTask 120000 completedWithTimeSpent).timeSpent ≠ some (some 999) ∧
    (updateTask 120000 completedPatch).timeSpent = some (some 2) ∧
    (updateTask 120000 completedPatch).timeSpent ≠ some (some 999) := by
  decide

/-- The conversion step preserves JavaScript truthiness: undefined,
null and the empty string are unchanged, and a nonempty string becomes
a Date object, truthy like the string was. -/
theorem convertDateField_truthy (f : DateField) :
    (convertDateField f).truthy = f.truthy := by
  cases f with
  | str s => cases hb : s == "" <;> simp [convertDateField, DateField.truthy, hb]
  | undef => rfl
  | jsNull => rfl
  | date d => rfl

/-- A create input like completedWithTimeSpent but with no
timeStarted. -/
def completedNoTimeStarted : InsertTask :=
  { completedWithTimeSpent with timeStarted := .undef }

/-- A create input that supplies its own timeCompleted (60000 ms)
along with timeSpent 999. -/
def completedWithTimeCompleted : InsertTask :=
  { completedWithTimeSpent with timeCompleted := .date (some 60000) }

/-- The no-timeStarted update patch. -/
def completedNoTimeStartedPatch : TaskBody :=
  { completedPatch with timeStarted := .undef }

/-- The update patch that supplies its own timeCompleted. -/
def completedWithTimeCompletedPatch : TaskBody :=
  { completedPatch with timeCompleted := .date (some 60000) }

/-- C5 amended: for every create or update input with status COMPLETED
and no truthy timeCompleted, the store sets timeCompleted to now; when
the same input also carries a timeStarted date, it sets timeSpent to
round((timeCompleted − timeStarted) in minutes), OVERWRITING any
timeSpent the caller supplied; when the input carries no timeStarted,
the caller's timeSpent (if any) is kept unchanged; and when the caller
supplies timeCompleted itself, no derivation occurs at all and the
caller's timeSpent is kept — each for createTask and updateTask
alike. -/
theorem c5_completion_derivation (now s : Int) (d : InsertTask) (p : TaskBody) :
    (d.status = some statusCompleted → d.timeCompleted.truthy = false →
      (createTask now d).timeCompleted = .date (some now) ∧
      (d.timeStarted = .date (some s) →
        (createTask now d).timeSpent = some (some (roundMinutes (now - s)))) ∧
      (d.timeStarted = .undef →
        (createTask now d).timeSpent = d.timeSpent.map some)) ∧
    (∀ c : JsDate, d.timeCompleted = .date c →
      (createTask now d).timeCompleted = .date c ∧
      (createTask now d).timeSpent = d.timeSpent.map some) ∧
    (p.status = some statusCompleted → p.timeCompleted.truthy = false →
      (updateTask now p).timeCompleted = .date (some now) ∧
      (p.timeStarted = .date (some s) →
        (updateTask now p).timeSpent = some (some (roundMinutes (now - s)))) ∧
      (p.timeStarted = .undef →
        (updateTask now p).timeSpent = p.timeSpent.map some)) ∧
    (∀ c : JsDate, p.timeCompleted = .date c →
      (updateTask now p).timeCompleted = .date c ∧
      (updateTask now p).timeSpent = p.timeSpent.map some) := by
  refine ⟨?_, ?_, ?_, ?_⟩
  · intro h1 h2
    have hct : (convertDateField d.timeCompleted).truthy = false := by
      rw [convertDateField_truthy]; exact h2
    have htc : createTaskTimeCompleted now d = .date (some now) := by
      unfold createTaskTimeCompleted
      rw [if_pos ⟨h1, hct⟩]
    refine ⟨htc, ?_, ?_⟩
    · intro h3
      have hts : createTaskTimeStarted now d = .date (some s) := by
        unfold createTaskTimeStarted
        rw [h3, if_neg]
        · rfl
        · rintro ⟨-, hf⟩
          simp [convertDateField, DateField.truthy] at hf
      show createTaskTimeSpent now d = _
      unfold createTaskTimeSpent
      rw [hts, htc, if_pos ⟨⟨h1, hct⟩, rfl⟩]
      rfl
    · intro h3
      have hts : createTaskTimeStarted now d = .undef := by
        unfold createTaskTimeStarted
        rw [h3, if_neg]
        · rfl
        · rintro ⟨hip, -⟩
          rw [h1] at hip
          exact absurd (Option.some.inj hip) (by decide)
      show createTaskTimeSpent now d = _
      unfold createTaskTimeSpent
      rw [hts, if_neg]
      rintro ⟨-, hf⟩
      simp [DateField.truthy] at hf
  · intro c hc
    have htc : createTaskTimeCompleted now d = .date c := by
      unfold createTaskTimeCompleted
      rw [hc, if_neg]
      · rfl
      · rintro ⟨-, hf⟩
        simp [convertDateField, DateField.truthy] at hf
    have hsp : createTaskTimeSpent now d = d.timeSpent.map some := by
      unfold createTaskTimeSpent
      rw [hc, if_neg]
      rintro ⟨⟨-, hf⟩, -⟩
      simp [convertDateField, DateField.truthy] at hf
    exact ⟨htc, hsp⟩
  · intro h1 h2
    have hct : (convertDateField p.timeCompleted).truthy = false := by
      rw [convertDateField_truthy]; exact h2
    have htc : updateTaskTimeCompleted now p = .date (some now) := by
      unfold updateTaskTimeCompleted
      rw [if_pos ⟨h1, hct, h2⟩]
    refine ⟨htc, ?_, ?_⟩
    · intro h3
      have hts : updateTaskTimeStarted now p = .date (some s) := by
        unfold updateTaskTimeStarted
        rw [h3, if_neg]
        · rfl
        · rintro ⟨-, hf, -⟩
          simp [convertDateField, DateField.truthy] at hf
      have hst : updateTaskStartTime now p = .date (some s) := by
        unfold updateTaskStartTime
        rw [hts]
        simp [DateField.truthy]
      show updateTaskTimeSpent now p = _
      unfold updateTaskTimeSpent
      rw [hts, htc, hst, if_pos ⟨⟨h1, hct, h2⟩, Or.inl rfl⟩]
      rfl
    · intro h3
      have hts : updateTaskTimeStarted now p = .undef := by
        unfold updateTaskTimeStarted
        rw [h3, if_neg]
        · rfl
        · rintro ⟨hip, -, -⟩
          rw [h1] at hip
          exact absurd (Option.some.inj hip) (by decide)
      show updateTaskTimeSpent now p = _
      unfold updateTaskTimeSpent
      rw [hts, h3, if_neg]
      rintro ⟨-, hor⟩
      rcases hor with hf | hf <;> simp [DateField.truthy] at hf
  · intro c hc
    have htc : updateTaskTimeCompleted now p = .date c := by
      unfold updateTaskTimeCompleted
      rw [hc, if_neg]
      · rfl
      · rintro ⟨-, hf, -⟩
        simp [convertDateField, DateField.truthy] at hf
    have hsp : updateTaskTimeSpent now p = p.timeSpent.map some := by
      unfold updateTaskTimeSpent
      rw [hc, if_neg]
      rintro ⟨⟨-, hf, -⟩, -⟩
      simp [convertDateField, DateField.truthy] at hf
    exact ⟨htc, hsp⟩

/-- C5 witness: every clause of the amended derivation at concrete
inputs, now = 120000 ms — timeStarted 0 gives the computed 2 minutes
overwriting the caller's 999; no timeStarted keeps the caller's 999;
a caller-supplied timeCompleted (60000 ms) is kept with no derivation
— for create and update alike. -/
theorem c5_completion_derivation_witness :
    ((createTask 120000 completedWithTimeSpent).timeCompleted = .date (some 120000) ∧
     (createTask 120000 completedWithTimeSpent).timeSpent = some (some 2)) ∧
    ((createTask 120000 completedNoTimeStarted).timeCompleted = .date (some 120000) ∧
     (createTask 120000 completedNoTimeStarted).timeSpent = some (some 999)) ∧
    ((createTask 120000 completedWithTimeCompleted).timeCompleted = .date (some 60000) ∧
     (createTask 120000 completedWithTimeCompleted).timeSpent = some (some 999)) ∧
    ((updateTask 120000 completedPatch).timeCompleted = .date (some 120000) ∧
     (updateTask 120000 completedPatch).timeSpent = some (some 2)) ∧
    ((updateTask 120000 completedNoTimeStartedPatch).timeCompleted = .date (some 120000) ∧
     (updateTask 120000 completedNoTimeStartedPatch).timeSpent = some (some 999)) ∧
    ((updateTask 120000 completedWithTimeCompletedPatch).timeCompleted = .date (some 60000) ∧
     (updateTask 120000 completedWithTimeCompletedPatch).timeSpent = some (some 999)) := by
  obtain ⟨hA, -, hC, -⟩ :=
    c5_completion_derivation 120000 0 completedWithTimeSpent completedPatch
  obtain ⟨ha1, ha2, -⟩ := hA rfl rfl
  obtain ⟨hc1, hc2, -⟩ := hC rfl rfl
  obtain ⟨hA2, -, hC2, -⟩ :=
    c5_completion_derivation 120000 0 completedNoTimeStarted completedNoTimeStartedPatch
  obtain ⟨ha21, -, ha23⟩ := hA2 rfl rfl
  obtain ⟨hc21, -, hc23⟩ := hC2 rfl rfl
  obtain ⟨-, hB3, -, hD3⟩ :=
    c5_completion_derivation 120000 0 completedWithTimeCompleted completedWithTimeCompletedPatch
  obtain ⟨hb31, hb32⟩ := hB3 (some 60000) rfl
  obtain ⟨hd31, hd32⟩ := hD3 (some 60000) rfl
  refine ⟨⟨ha1, ?_⟩, ⟨ha21, ?_⟩, ⟨hb31, ?_⟩, ⟨hc1, ?_⟩, ⟨hc21, ?_⟩, ⟨hd31, ?_⟩⟩
  · rw [ha2 rfl]; decide
  · rw [ha23 rfl]; decide
  · rw [hb32]; decide
  · rw [hc2 rfl]; decide
  · rw [hc23 rfl]; decide
  · rw [hd32]; decide

/-! ### C7 -/

/-- Four concrete stored tasks: 1 TODO, 1 IN_PROGRESS, 2 COMPLETED. -/
def sampleTodoTask : Task :=
  { sampleStoredTask with id := 10, title := "t1" }

/-- The in-progress sample. -/
def sampleInProgressTask : Task :=
  { sampleStoredTask with id := 11, title := "t2", status := statusInProgress }

/-- The first completed sample. -/
def sampleCompletedA : Task :=
  { sampleStoredTask with id := 12, title := "t3", status := statusCompleted }

/-- The second completed sample. -/
def sampleCompletedB : Task :=
  { sampleStoredTask with id := 13, title := "t4", status := statusCompleted }

/-- C7: the stats computation counts per status, its completionRate is
0 for an empty store, never exceeds 100, and on the concrete 4-task
store (1 TODO, 1 IN_PROGRESS, 2 COMPLETED) it returns exactly
{total 4, todo 1, inProgress 1, completed 2, completionRate 50}. -/
theorem c7_task_stats (l : List Task) :
    (taskStats l).completionRate ≤ 100 ∧
    ((taskStats l).total = 0 → (taskStats l).completionRate = 0) ∧
    taskStats [sampleTodoTask, sampleInProgressTask, sampleCompletedA, sampleCompletedB]
      = { total := 4, todo := 1, inProgress := 1, completed := 2, completionRate := 50 } := by
  refine ⟨?_, ?_, by decide⟩
  · simp only [taskStats]
    split
    next h =>
      have hc : countStatus l statusCompleted ≤ l.length := List.length_filter_le _ _
      have h2 : 0 < 2 * l.length := by omega
      have h3 := (Nat.div_lt_iff_lt_mul h2).mpr
        (show 200 * countStatus l statusCompleted + l.length < 101 * (2 * l.length) by omega)
      omega
    next => exact Nat.zero_le _
  · intro h0
    simp only [taskStats] at h0 ⊢
    rw [if_neg (by omega)]

/-- C7 witness: completionRate 0 on the empty store and the bound at a
concrete store. -/
theorem c7_task_stats_witness :
    (taskStats []).completionRate = 0 ∧
    (taskStats [sampleTodoTask]).completionRate ≤ 100 :=
  ⟨(c7_task_stats []).2.1 rfl, (c7_task_stats [sampleTodoTask]).1⟩

/-! ### C8 -/

/-- A task due exactly at the following local midnight. -/
def taskDueTomorrowMidnight : Task :=
  { sampleStoredTask with id := 3, title := "Boundary", dueDate := some (some 86400000) }

/-- C8 counterexample: with today = 0 and tomorrow = 86400000 (the
next local midnight), a task due exactly at tomorrow 00:00 IS selected
by getTasksDueToday — the claim says it must not be. -/
theorem c8_counterexample :
    getTasksDueToday 0 86400000 [taskDueTomorrowMidnight]
      = [taskDueTomorrowMidnight] := by
  decide

/-- C8 amended: the due-today filter selects a task exactly when its
dueDate is a non-null valid date inside the CLOSED interval
[today 00:00, tomorrow 00:00] — the query uses lte, both bounds
inclusive — so a task due exactly at tomorrow 00:00 is selected. -/
theorem c8_due_today_closed_interval (today tomorrow : Int) (l : List Task) (t : Task) :
    t ∈ getTasksDueToday today tomorrow l
      ↔ t ∈ l ∧ ∃ d, t.dueDate = some (some d) ∧ today ≤ d ∧ d ≤ tomorrow := by
  unfold getTasksDueToday
  rw [List.mem_filter]
  constructor
  · rintro ⟨hm, hc⟩
    refine ⟨hm, ?_⟩
    cases hd : t.dueDate with
    | none => rw [hd] at hc; simp at hc
    | some j =>
      cases j with
      | none => rw [hd] at hc; simp at hc
      | some d =>
        rw [hd] at hc
        simp at hc
        exact ⟨d, rfl, hc.1, hc.2⟩
  · rintro ⟨hm, d, hd, h1, h2⟩
    refine ⟨hm, ?_⟩
    rw [hd]
    simp [h1, h2]

/-- C8 witness: the boundary task is selected through the amended
characterization. -/
theorem c8_due_today_closed_interval_witness :
    taskDueTomorrowMidnight ∈ getTasksDueToday 0 86400000 [taskDueTomorrowMidnight] :=
  (c8_due_today_closed_interval 0 86400000 [taskDueTomorrowMidnight]
      taskDueTomorrowMidnight).mpr
    ⟨by decide, 86400000, rfl, by decide, by decide⟩

/-! ### C9 -/

/-- A POST /tasks body whose title is the empty string. -/
def emptyTitleBody : TaskBody :=
  { title := some "", description := none, status := none, priority := none,
    dueDate := .undef, category := none, isAiGenerated := none, source := none,
    userId := none, locationId := none, timeSpent := none,
    timeStarted := .undef, timeCompleted := .undef, photoUrl := none }

/-- C9 counterexample: the empty-title body passes insertTaskSchema
(z.string() has no minimum length) and POST /tasks answers 201,
creating a task whose title is the empty string — not the claimed
400. -/
theorem c9_counterexample :
    (postTasks 0 emptyTitleBody).1 = 201 ∧
    (postTasks 0 emptyTitleBody).1 ≠ 400 ∧
    ((postTasks 0 emptyTitleBody).2.map ProcessedInsert.title) = some "" := by
  decide

/-- C9 amended: insertTaskSchema only requires title to be present (a
missing title fails with 400); it places no constraint on the string
content, so a body with any title string — the empty string included —
validates and POST /tasks creates the task and returns 201. -/
theorem c9_title_validation (now : Int) (b : TaskBody) :
    (b.title = none → postTasks now b = (400, none)) ∧
    (∀ ti, b.title = some ti →
      (postTasks now b).1 = 201 ∧
      ((postTasks now b).2.map ProcessedInsert.title) = some ti) := by
  constructor
  · intro h
    unfold postTasks insertTaskSchema
    rw [h]
  · intro ti h
    unfold postTasks insertTaskSchema
    rw [h]
    exact ⟨rfl, rfl⟩

/-- C9 witness: the amended behavior at the empty-title body. -/
theorem c9_title_validation_witness :
    (postTasks 0 emptyTitleBody).1 = 201 ∧
    ((postTasks 0 emptyTitleBody).2.map ProcessedInsert.title) = some "" :=
  (c9_title_validation 0 emptyTitleBody).2 "" rfl

/-! ### C10 -/

/-- A body carrying an unparsable dueDate string. -/
def unparsableDueDateBody : TaskBody :=
  { emptyTitleBody with title := some "Pay rent", dueDate := .str "not-a-date" }

/-- A body whose dueDate is the empty string. -/
def emptyDueDateBody : TaskBody :=
  { emptyTitleBody with title := some "Pay rent", dueDate := .str "" }

/-- C10 counterexample: the empty string is a string dueDate the store
does NOT hand to the Date constructor — the falsy guard skips the
conversion and the raw empty string goes into the insert payload — so
the conversion the claim asserts for every string does not happen
here (validation still succeeds). -/
theorem c10_counterexample :
    ((postTasks 0 emptyDueDateBody).2.map ProcessedInsert.dueDate)
      = some (.str "") ∧
    DateField.str "" ≠ DateField.date (jsNewDate "") := by
  decide

/-- C10 amended: every string dueDate passes input validation; a
nonempty string is converted with the Date constructor and the result
stored without any validity check, so an unparsable nonempty string is
stored as an Invalid Date value (jsNewDate yields none on the concrete
unparsable string); only the empty string skips the conversion (falsy
guard) and is passed through raw. -/
theorem c10_duedate_unchecked (now : Int) (b : TaskBody) (ti s : String)
    (ht : b.title = some ti) (hd : b.dueDate = .str s) (hs : s ≠ "") :
    (∃ d, insertTaskSchema b = some d ∧ d.dueDate = .str s) ∧
    ((postTasks now b).2.map ProcessedInsert.dueDate)
      = some (.date (jsNewDate s)) ∧
    jsNewDate "not-a-date" = none := by
  have hconv : convertDateField (.str s) = .date (jsNewDate s) := by
    show (if (s == "") = true then DateField.str s else DateField.date (jsNewDate s))
        = DateField.date (jsNewDate s)
    rw [if_neg]
    simpa using hs
  have hparse : insertTaskSchema b
      = some { title := ti, description := b.description, status := b.status,
               priority := b.priority, dueDate := b.dueDate, category := b.category,
               isAiGenerated := b.isAiGenerated, source := b.source,
               userId := b.userId, locationId := b.locationId,
               timeSpent := b.timeSpent, timeStarted := b.timeStarted,
               timeCompleted := b.timeCompleted, photoUrl := b.photoUrl } := by
    unfold insertTaskSchema
    rw [ht]
  refine ⟨⟨_, hparse, hd⟩, ?_, by decide⟩
  unfold postTasks
  rw [hparse]
  show some (convertDateField b.dueDate) = some (DateField.date (jsNewDate s))
  rw [hd, hconv]

/-- C10 witness: the unparsable concrete string is accepted, converted
and stored as an Invalid Date. -/
theorem c10_duedate_unchecked_witness :
    ((postTasks 0 unparsableDueDateBody).2.map ProcessedInsert.dueDate)
      = some (.date (jsNewDate "not-a-date")) ∧
    jsNewDate "not-a-date" = none :=
  ⟨(c10_duedate_unchecked 0 unparsableDueDateBody "Pay rent" "not-a-date"
      rfl rfl (by decide)).2.1,
   (c10_duedate_unchecked 0 unparsableDueDateBody "Pay rent" "not-a-date"
      rfl rfl (by decide)).2.2⟩

end TaskManager
